import Mathlib

/-!
Verification of the ble-react-native repository: a BLE peripheral (ESP32 firmware,
given as code blocks in the repository guide) streaming load-cell samples to a
React Native client (Redux slice and screens).

The firmware part embeds the global flags `client_is_connected` and
`load_cell_sampling_enabled`, the characteristic value, the server callbacks
(`BaseBLEServerCallbacks`, `SampleLoadCellCallback`), and the `loop` /
`stateMachine` / `notifyWeight` sampling path.  Sensor reads (`scale.get_units`)
are modelled by passing the freshly sampled 32-bit float pattern into each
handler and recording a `sensorRead` effect.  The app part embeds the
`addScannedDevice` reducer of the BLE Redux slice and the rendering logic of
`WeightScreen` (JS numbers modelled as rationals).
-/

namespace BLEFirmware

/-- Value stored in the load-cell characteristic: either raw ASCII bytes from
`setValue(const char*)` (the boot value "PENDING") or the 4-byte little-endian
encoding of a 32-bit float bit pattern from `setValue(float)`. -/
inductive CharValue where
  | strVal (bytes : List Nat)
  | floatVal (bits : Nat)
  deriving DecidableEq

/-- Little-endian byte serialization of a 32-bit float bit pattern. -/
def float32Bytes (bits : Nat) : List Nat :=
  [bits % 256, bits / 256 % 256, bits / 65536 % 256, bits / 16777216 % 256]

/-- Wire bytes of a characteristic value. -/
def bytesOf : CharValue → List Nat
  | .strVal bytes => bytes
  | .floatVal bits => float32Bytes bits

/-- The wire shape required by the spec: exactly 4 bytes, each a byte. -/
def IsFloat32LE (l : List Nat) : Prop := l.length = 4 ∧ ∀ b ∈ l, b < 256

instance (l : List Nat) : Decidable (IsFloat32LE l) := by
  unfold IsFloat32LE; infer_instance

/-- Global firmware state: the two FSM flags, whether the peripheral is
currently advertising, and the characteristic's stored value. -/
structure FirmwareState where
  client_is_connected : Bool
  load_cell_sampling_enabled : Bool
  advertising : Bool
  charValue : CharValue
  deriving DecidableEq

/-- Observable side effects of a handler: serial log, advertising start, a call
to `scale.get_units` (a sensor read), and a notification carrying the float bit
pattern sent to the subscriber. -/
inductive Effect where
  | log (msg : String)
  | advertisingStart
  | sensorRead
  | notifySample (bits : Nat)
  deriving DecidableEq

/-- `BaseBLEServerCallbacks::onConnect`: sets `client_is_connected` and logs. -/
def BaseBLEServerCallbacks_onConnect (s : FirmwareState) : FirmwareState × List Effect :=
  ({ s with client_is_connected := true }, [.log "Device connected"])

/-- `BaseBLEServerCallbacks::onDisconnect`: clears `client_is_connected`, logs,
and restarts advertising via `pServer->getAdvertising()->start()`. -/
def BaseBLEServerCallbacks_onDisconnect (s : FirmwareState) : FirmwareState × List Effect :=
  ({ s with client_is_connected := false, advertising := true },
   [.log "Device disconnected", .advertisingStart])

/-- `SampleLoadCellCallback::onRead`: samples `scale.get_units()` (bit pattern
`w`) and writes it into the characteristic before the read response is sent. -/
def SampleLoadCellCallback_onRead (s : FirmwareState) (w : Nat) : FirmwareState × List Effect :=
  ({ s with charValue := .floatVal w }, [.sensorRead])

/-- Bytes returned to the client by a manual read: the characteristic value
after `onRead` ran. -/
def readResponse (s : FirmwareState) (w : Nat) : List Nat :=
  bytesOf (SampleLoadCellCallback_onRead s w).1.charValue

/-- Modelled from the spec: the body of `LoadCellDescriptorCallback` is not in
the repository (only its registration on the 0x2902 descriptor in
`setupSampleService`); spec section 4.3 defines it as setting the subscription
state true iff the notify bit (bit 0) of the written two-byte CCCD value is
set. -/
def LoadCellDescriptorCallback_onWrite (s : FirmwareState) (v : Nat) : FirmwareState :=
  { s with load_cell_sampling_enabled := v.testBit 0 }

/-- `notifyWeight()`: samples `scale.get_units(5)` (bit pattern `w`), stores it
in the characteristic and notifies the subscriber with it. -/
def notifyWeight (s : FirmwareState) (w : Nat) : FirmwareState × List Effect :=
  ({ s with charValue := .floatVal w }, [.sensorRead, .notifySample w])

/-- `stateMachine()`: notify only when `load_cell_sampling_enabled` holds. -/
def stateMachine (s : FirmwareState) (w : Nat) : FirmwareState × List Effect :=
  if s.load_cell_sampling_enabled then notifyWeight s w else (s, [])

/-- `loop()`: run the state machine only when `client_is_connected` holds. -/
def loopTick (s : FirmwareState) (w : Nat) : FirmwareState × List Effect :=
  if s.client_is_connected then stateMachine s w else (s, [])

/-- ASCII bytes of "PENDING", the initial characteristic value set in
`setupSampleService` via `setValue("PENDING")`. -/
def pendingBytes : List Nat := [80, 69, 78, 68, 73, 78, 71]

/-- State after `setup()`: flags cleared, advertising started, characteristic
holding the string "PENDING". -/
def bootState : FirmwareState :=
  { client_is_connected := false
    load_cell_sampling_enabled := false
    advertising := true
    charValue := .strVal pendingBytes }

/-- Stack events delivered to the firmware.  Reads, CCCD writes and sensor
samples carry the relevant payloads. -/
inductive Ev where
  | connect
  | disconnect
  | descriptorWrite (v : Nat)
  | readRequest (w : Nat)
  | tick (w : Nat)

/-- One event step.  Stack semantics: a connection can only be accepted while
advertising (and the stack implicitly halts advertising on connect); disconnect,
client reads and descriptor writes are only delivered while a client is
connected; the loop tick always runs. -/
def stepEv (s : FirmwareState) (e : Ev) : FirmwareState × List Effect :=
  match e with
  | .connect =>
      if s.advertising then BaseBLEServerCallbacks_onConnect { s with advertising := false }
      else (s, [])
  | .disconnect =>
      if s.client_is_connected then BaseBLEServerCallbacks_onDisconnect s else (s, [])
  | .descriptorWrite v =>
      if s.client_is_connected then (LoadCellDescriptorCallback_onWrite s v, []) else (s, [])
  | .readRequest w =>
      if s.client_is_connected then SampleLoadCellCallback_onRead s w else (s, [])
  | .tick w => loopTick s w

/-- States reachable from boot by stack events. -/
inductive Reachable : FirmwareState → Prop where
  | boot : Reachable bootState
  | step (s : FirmwareState) (e : Ev) : Reachable s → Reachable (stepEv s e).1

/-- State after a client connected. -/
def connState : FirmwareState := (stepEv bootState .connect).1

/-- State after a client connected and wrote 0x0001 to the CCCD. -/
def activeState : FirmwareState := (stepEv connState (.descriptorWrite 1)).1

theorem isFloat32LE_float32Bytes (bits : Nat) : IsFloat32LE (float32Bytes bits) := by
  refine ⟨rfl, ?_⟩
  intro b hb
  simp only [float32Bytes, List.mem_cons, List.not_mem_nil, or_false] at hb
  rcases hb with h | h | h | h <;> subst h <;> exact Nat.mod_lt _ (by norm_num)

end BLEFirmware

namespace BLEApp

/-- Scanned device view model (`toBLEDeviceVM`), restricted to the fields the
scan-list reducer inspects: `id`, `name` and `rssi` (absent on some scan
results, hence optional). -/
structure BLEDevice where
  id : String
  name : String
  rssi : Option Int
  deriving DecidableEq

/-- Sort key used by the `addScannedDevice` comparator: `a.rssi = a.rssi || -100`
coerces a missing rssi to -100 (JS `||` also treats a 0 rssi as falsy). -/
def rssiKey (d : BLEDevice) : Int :=
  match d.rssi with
  | some r => if r = 0 then -100 else r
  | none => -100

/-- Ordering produced by the comparator
`a.rssi > b.rssi ? -1 : b.rssi > a.rssi ? 1 : 0`: descending by `rssiKey`. -/
def rssiDescOrder (a b : BLEDevice) : Prop := rssiKey b ≤ rssiKey a

instance : DecidableRel rssiDescOrder := fun _ _ => Int.decLe _ _

instance : IsTotal BLEDevice rssiDescOrder := ⟨fun a b => le_total (rssiKey b) (rssiKey a)⟩

instance : IsTrans BLEDevice rssiDescOrder := ⟨fun _ _ _ h1 h2 => le_trans h2 h1⟩

/-- The `addScannedDevice` reducer: drop existing entries with the new device's
id, prepend the new device, and sort by rssi in descending order. -/
def addScannedDevice (devices : List BLEDevice) (device : BLEDevice) : List BLEDevice :=
  let existingDevices := devices.filter (fun existingDevice => device.id != existingDevice.id)
  let updatedDevices := device :: existingDevices
  List.insertionSort rssiDescOrder updatedDevices

/-- Scan lists reachable in the store: `deviceScan.devices` starts empty and is
only modified by `addScannedDevice` and `clearScannedDevices`. -/
inductive ReachDevices : List BLEDevice → Prop where
  | init : ReachDevices []
  | add (l : List BLEDevice) (d : BLEDevice) : ReachDevices l → ReachDevices (addScannedDevice l d)
  | clear (l : List BLEDevice) : ReachDevices l → ReachDevices []

theorem addScannedDevice_perm (devices : List BLEDevice) (device : BLEDevice) :
    List.Perm (addScannedDevice devices device)
      (device :: devices.filter (fun e => device.id != e.id)) :=
  List.perm_insertionSort _ _

theorem nodup_ids_addScannedDevice (devices : List BLEDevice) (d : BLEDevice)
    (h : (devices.map BLEDevice.id).Nodup) :
    ((addScannedDevice devices d).map BLEDevice.id).Nodup := by
  have hperm := (addScannedDevice_perm devices d).map BLEDevice.id
  refine hperm.nodup_iff.mpr ?_
  refine List.nodup_cons.mpr ⟨?_, ?_⟩
  · intro hmem
    rcases List.mem_map.mp hmem with ⟨x, hx, hid⟩
    have := (List.mem_filter.mp hx).2
    rw [bne_iff_ne] at this
    exact this hid.symm
  · exact List.Nodup.sublist ((devices.filter_sublist).map BLEDevice.id) h

theorem reachDevices_nodup (l : List BLEDevice) (h : ReachDevices l) :
    (l.map BLEDevice.id).Nodup := by
  induction h with
  | init => simp
  | add l d _ ih => exact nodup_ids_addScannedDevice l d ih
  | clear l _ => simp

/-- State of the `WeightScreen` component that the claims inspect: the `weight`
React state (a JS number or null, numbers modelled as rationals). -/
structure WeightScreenState where
  weight : Option ℚ
  deriving DecidableEq

/-- `weightMonitorCallbackHandler`: when the characteristic carries a value
decoding (via base64 and `readFloatLE`) to `res`, set `weight` to `res * 1000`;
otherwise leave the state alone. -/
def weightMonitorCallbackHandler (st : WeightScreenState) (payload : Option ℚ) :
    WeightScreenState :=
  match payload with
  | some res => { st with weight := some (res * 1000) }
  | none => st

/-- JS `Math.round`: round half towards positive infinity. -/
def jsRound (q : ℚ) : Int := ⌊q + 1 / 2⌋

/-- What `WeightScreen` renders: the "No device connected" screen, the centered
container with no `WeightWidget` (weight null or 0, both falsy in
`weight && <WeightWidget/>`), or a `WeightWidget` displaying a gram value. -/
inductive RenderedWeightScreen where
  | noDevice
  | bareCenter
  | widget (grams : Int)
  deriving DecidableEq

/-- Render function of `WeightScreen`: the widget shows
`Math.round(weight).toString()` grams and is only mounted when `weight` is
truthy. -/
def renderWeightScreen (deviceConnected : Bool) (weight : Option ℚ) : RenderedWeightScreen :=
  if deviceConnected then
    match weight with
    | some w => if w = 0 then .bareCenter else .widget (jsRound w)
    | none => .bareCenter
  else .noDevice

end BLEApp

namespace BLEFirmware

/-- C1 (counterexample): a client connects, subscribes by writing 0x0001 to the
CCCD, then disconnects; the disconnect is fully processed (the connected flag
is cleared and the resulting state is reachable), yet
`load_cell_sampling_enabled` is still true — `onDisconnect` never resets it. -/
theorem C1_counterexample :
    activeState.load_cell_sampling_enabled = true
    ∧ (stepEv activeState .disconnect).1.client_is_connected = false
    ∧ (stepEv activeState .disconnect).1.load_cell_sampling_enabled = true
    ∧ Reachable (stepEv activeState .disconnect).1 := by
  refine ⟨by decide, by decide, by decide, ?_⟩
  exact Reachable.step _ _ (Reachable.step _ _ (Reachable.step _ _ Reachable.boot))

/-- C1 (amended): after a disconnect event is processed, the connected flag is
false and advertising is restarted, but `load_cell_sampling_enabled` keeps
whatever value it had immediately before the disconnect — `onDisconnect` does
not touch it, so only a fresh CCCD write changes it. -/
theorem C1_amended_disconnect_keeps_subscription_flag (s : FirmwareState)
    (h : s.client_is_connected = true) :
    (stepEv s .disconnect).1.client_is_connected = false
    ∧ (stepEv s .disconnect).1.advertising = true
    ∧ (stepEv s .disconnect).1.load_cell_sampling_enabled = s.load_cell_sampling_enabled := by
  simp [stepEv, h, BaseBLEServerCallbacks_onDisconnect]

theorem C1_amended_witness :
    (stepEv connState .disconnect).1.client_is_connected = false
    ∧ (stepEv connState .disconnect).1.advertising = true
    ∧ (stepEv connState .disconnect).1.load_cell_sampling_enabled
        = connState.load_cell_sampling_enabled :=
  C1_amended_disconnect_keeps_subscription_flag connState (by decide)

/-- C2: on any scheduler tick in a state where the connected flag is false or
the subscription flag is false, no sensor read occurs and no notification is
emitted. -/
theorem C2_idle_tick_no_read_no_notify (s : FirmwareState) (w : Nat)
    (h : s.client_is_connected = false ∨ s.load_cell_sampling_enabled = false) :
    Effect.sensorRead ∉ (loopTick s w).2
    ∧ ∀ bits, Effect.notifySample bits ∉ (loopTick s w).2 := by
  rcases h with h | h
  · simp [loopTick, h]
  · cases hc : s.client_is_connected <;> simp [loopTick, stateMachine, hc, h]

theorem C2_idle_tick_witness :
    Effect.sensorRead ∉ (loopTick bootState 0).2
    ∧ ∀ bits, Effect.notifySample bits ∉ (loopTick bootState 0).2 :=
  C2_idle_tick_no_read_no_notify bootState 0 (Or.inl rfl)

/-- C3: processing a disconnect explicitly restarts advertising, and in every
reachable state with no client connected the peripheral is advertising (so
advertising is active again before the next connect event can be accepted). -/
theorem C3_advertising_restart :
    (∀ s : FirmwareState, s.client_is_connected = true →
      Effect.advertisingStart ∈ (stepEv s .disconnect).2
      ∧ (stepEv s .disconnect).1.advertising = true)
    ∧ ∀ s : FirmwareState, Reachable s → s.client_is_connected = false → s.advertising = true := by
  constructor
  · intro s h
    simp [stepEv, h, BaseBLEServerCallbacks_onDisconnect]
  · intro s hr
    induction hr with
    | boot => intro _; rfl
    | step s e hr ih =>
      cases e with
      | connect =>
        by_cases ha : s.advertising
        · intro h2
          simp [stepEv, ha, BaseBLEServerCallbacks_onConnect] at h2
        · simpa [stepEv, ha] using ih
      | disconnect =>
        by_cases hc : s.client_is_connected
        · intro _
          simp [stepEv, hc, BaseBLEServerCallbacks_onDisconnect]
        · simpa [stepEv, hc] using ih
      | descriptorWrite v =>
        by_cases hc : s.client_is_connected
        · intro h2
          simp [stepEv, hc, LoadCellDescriptorCallback_onWrite] at h2
        · simpa [stepEv, hc] using ih
      | readRequest w =>
        by_cases hc : s.client_is_connected
        · intro h2
          simp [stepEv, hc, SampleLoadCellCallback_onRead] at h2
        · simpa [stepEv, hc] using ih
      | tick w =>
        by_cases hc : s.client_is_connected
        · by_cases he : s.load_cell_sampling_enabled
          · intro h2
            simp [stepEv, loopTick, stateMachine, notifyWeight, hc, he] at h2
          · exact fun h2 => by
              simp only [stepEv, loopTick, stateMachine, hc, he, if_true, if_neg] at h2 ⊢
              exact ih (by simpa using h2)
        · simpa [stepEv, loopTick, hc] using ih

theorem C3_advertising_restart_witness :
    (Effect.advertisingStart ∈ (stepEv connState .disconnect).2
      ∧ (stepEv connState .disconnect).1.advertising = true)
    ∧ bootState.advertising = true :=
  ⟨C3_advertising_restart.1 connState (by decide),
   C3_advertising_restart.2 bootState Reachable.boot (by decide)⟩

/-- C4: on a tick with both flags true, the effects are exactly one sensor read
followed by exactly one notify attempt carrying that tick's sampled value; the
next tick's notify carries that next tick's fresh sample (no buffering, a
failed notify is never re-sent). -/
theorem C4_active_tick_fresh_sample (s : FirmwareState) (w w' : Nat)
    (hc : s.client_is_connected = true) (he : s.load_cell_sampling_enabled = true) :
    (loopTick s w).2 = [Effect.sensorRead, Effect.notifySample w]
    ∧ (loopTick (loopTick s w).1 w').2 = [Effect.sensorRead, Effect.notifySample w'] := by
  constructor <;> simp [loopTick, stateMachine, notifyWeight, hc, he]

theorem C4_active_tick_witness :
    (loopTick activeState 7).2 = [Effect.sensorRead, Effect.notifySample 7]
    ∧ (loopTick (loopTick activeState 7).1 9).2
        = [Effect.sensorRead, Effect.notifySample 9] :=
  C4_active_tick_fresh_sample activeState 7 9 (by decide) (by decide)

/-- C5: a manual client read always performs exactly one fresh sensor read and
the response carries that fresh value, whatever value was cached in the
characteristic beforehand (the response is independent of the prior state). -/
theorem C5_manual_read_fresh_sample (s : FirmwareState) (w : Nat) :
    (SampleLoadCellCallback_onRead s w).2 = [Effect.sensorRead]
    ∧ readResponse s w = float32Bytes w
    ∧ ∀ s' : FirmwareState, readResponse s' w = readResponse s w :=
  ⟨rfl, rfl, fun _ => rfl⟩

/-- C6: writing 0x0001 to the CCCD enables the subscription flag, writing
0x0000 disables it, and an arbitrary written pattern is decoded by bit 0
only (the result agrees with the write of `v mod 2`). -/
theorem C6_descriptor_decoding (s : FirmwareState) (v : Nat) :
    (LoadCellDescriptorCallback_onWrite s 1).load_cell_sampling_enabled = true
    ∧ (LoadCellDescriptorCallback_onWrite s 0).load_cell_sampling_enabled = false
    ∧ (LoadCellDescriptorCallback_onWrite s v).load_cell_sampling_enabled
        = (LoadCellDescriptorCallback_onWrite s (v % 2)).load_cell_sampling_enabled := by
  refine ⟨rfl, rfl, ?_⟩
  show v.testBit 0 = (v % 2).testBit 0
  rcases Nat.mod_two_eq_zero_or_one v with h | h <;> simp [Nat.testBit_zero, h]

/-- C7 (counterexample): the boot state is reachable, and there the
characteristic holds the 7-byte ASCII string "PENDING" — not a 4-byte
little-endian float32. -/
theorem C7_counterexample :
    Reachable bootState ∧ ¬ IsFloat32LE (bytesOf bootState.charValue) :=
  ⟨Reachable.boot, by decide⟩

/-- C7 (amended): every value actually delivered to a client is a 4-byte
little-endian float32 — a manual read response is the float32 encoding of the
fresh sample, and whenever a tick notifies, the notified bits land in the
characteristic as float32 bytes; only the resting boot value "PENDING", present
before the first read or notification, is not float32-shaped. -/
theorem C7_amended_wire_values_are_float32 (s : FirmwareState) (w : Nat) :
    IsFloat32LE (readResponse s w)
    ∧ ∀ bits, Effect.notifySample bits ∈ (loopTick s w).2 →
        bytesOf (loopTick s w).1.charValue = float32Bytes bits
        ∧ IsFloat32LE (bytesOf (loopTick s w).1.charValue) := by
  refine ⟨isFloat32LE_float32Bytes w, ?_⟩
  intro bits hmem
  by_cases hc : s.client_is_connected
  · by_cases he : s.load_cell_sampling_enabled
    · simp only [loopTick, stateMachine, notifyWeight, hc, he, if_true,
        List.mem_cons, List.not_mem_nil, or_false] at hmem
      rcases hmem with h2 | h2
      · exact absurd h2 (by simp)
      · injection h2 with h3
        subst h3
        refine ⟨by simp [loopTick, stateMachine, notifyWeight, hc, he, bytesOf], ?_⟩
        simp only [loopTick, stateMachine, notifyWeight, hc, he, if_true]
        exact isFloat32LE_float32Bytes _
    · exact absurd hmem (by simp [loopTick, stateMachine, hc, he])
  · exact absurd hmem (by simp [loopTick, hc])

theorem C7_amended_witness :
    IsFloat32LE (readResponse bootState 0)
    ∧ bytesOf (loopTick activeState 3).1.charValue = float32Bytes 3 :=
  ⟨(C7_amended_wire_values_are_float32 bootState 0).1,
   ((C7_amended_wire_values_are_float32 activeState 3).2 3 (by decide)).1⟩

/-- C8 (counterexample): when the connect callback fires while the firmware
already records a client as connected, nothing distinguishes it from a first
connect: the emitted effects are exactly the ordinary "Device connected" log —
identical to those of a connect from the idle state — and the connection is not
rejected (the flag simply stays true). -/
theorem C8_counterexample :
    connState.client_is_connected = true
    ∧ (BaseBLEServerCallbacks_onConnect connState).2
        = (BaseBLEServerCallbacks_onConnect { connState with client_is_connected := false }).2
    ∧ (BaseBLEServerCallbacks_onConnect connState).2 = [Effect.log "Device connected"]
    ∧ (BaseBLEServerCallbacks_onConnect connState).1.client_is_connected = true :=
  ⟨by decide, rfl, rfl, by decide⟩

/-- C8 (amended): a connect callback firing while already connected is not
detected or specially handled: it leaves the state exactly as it was, emits the
same "Device connected" log as a first connect, and contains no rejection — the
tracked flag stays true (idempotent absorption), but no fatal-to-assumption
treatment exists. -/
theorem C8_amended_double_connect_unhandled (s : FirmwareState)
    (h : s.client_is_connected = true) :
    (BaseBLEServerCallbacks_onConnect s).1 = s
    ∧ (BaseBLEServerCallbacks_onConnect s).2 = [Effect.log "Device connected"]
    ∧ (BaseBLEServerCallbacks_onConnect s).2
        = (BaseBLEServerCallbacks_onConnect { s with client_is_connected := false }).2 := by
  refine ⟨?_, rfl, rfl⟩
  cases s with
  | mk c e a v =>
    cases h
    rfl

theorem C8_amended_witness :
    (BaseBLEServerCallbacks_onConnect connState).1 = connState :=
  (C8_amended_double_connect_unhandled connState (by decide)).1

end BLEFirmware

namespace BLEApp

/-- C9: dispatching `addScannedDevice` on any reachable scan list yields a list
containing the new device, with no two entries sharing an id (any previous
entry with the new device's id is replaced by the new entry), sorted by rssi in
descending order. -/
theorem C9_addScannedDevice_invariants (devices : List BLEDevice) (device : BLEDevice)
    (h : ReachDevices devices) :
    device ∈ addScannedDevice devices device
    ∧ ((addScannedDevice devices device).map BLEDevice.id).Nodup
    ∧ List.Sorted rssiDescOrder (addScannedDevice devices device)
    ∧ ∀ x ∈ addScannedDevice devices device, x.id = device.id → x = device := by
  have hperm := addScannedDevice_perm devices device
  refine ⟨?_, nodup_ids_addScannedDevice devices device (reachDevices_nodup devices h), ?_, ?_⟩
  · exact hperm.mem_iff.mpr (List.mem_cons_self _ _)
  · exact List.sorted_insertionSort rssiDescOrder _
  · intro x hx hid
    rcases List.mem_cons.mp (hperm.mem_iff.mp hx) with hx | hx
    · exact hx
    · have := (List.mem_filter.mp hx).2
      rw [bne_iff_ne] at this
      exact absurd hid.symm this

theorem C9_addScannedDevice_witness :
    BLEDevice.mk "bb" "BLE_SERVER" (some (-60))
        ∈ addScannedDevice (addScannedDevice [] (BLEDevice.mk "aa" "BLE_SERVER" (some (-40))))
            (BLEDevice.mk "bb" "BLE_SERVER" (some (-60)))
    ∧ List.Sorted rssiDescOrder
        (addScannedDevice (addScannedDevice [] (BLEDevice.mk "aa" "BLE_SERVER" (some (-40))))
          (BLEDevice.mk "bb" "BLE_SERVER" (some (-60)))) := by
  have h := C9_addScannedDevice_invariants
      (addScannedDevice [] (BLEDevice.mk "aa" "BLE_SERVER" (some (-40))))
      (BLEDevice.mk "bb" "BLE_SERVER" (some (-60)))
      (ReachDevices.add _ _ ReachDevices.init)
  exact ⟨h.1, h.2.2.1⟩

/-- C10: a notification payload decoding to exactly 0 sets the weight state to
0 and the screen renders no `WeightWidget` at all (0 is falsy in
`weight && <WeightWidget/>`), while any nonzero decoded value `res` is rendered
as `Math.round(res * 1000)` grams. -/
theorem C10_zero_weight_not_rendered (st : WeightScreenState) :
    (weightMonitorCallbackHandler st (some 0)).weight = some 0
    ∧ renderWeightScreen true (weightMonitorCallbackHandler st (some 0)).weight
        = RenderedWeightScreen.bareCenter
    ∧ ∀ res : ℚ, res ≠ 0 →
        renderWeightScreen true (weightMonitorCallbackHandler st (some res)).weight
          = RenderedWeightScreen.widget (jsRound (res * 1000)) := by
  refine ⟨by simp [weightMonitorCallbackHandler], ?_, ?_⟩
  · simp [weightMonitorCallbackHandler, renderWeightScreen]
  · intro res h
    have hne : res * 1000 ≠ 0 := by
      intro hz
      rcases mul_eq_zero.mp hz with h0 | h0
      · exact h h0
      · norm_num at h0
    simp [weightMonitorCallbackHandler, renderWeightScreen, hne]

theorem C10_zero_weight_witness :
    renderWeightScreen true
        (weightMonitorCallbackHandler (WeightScreenState.mk none) (some 2)).weight
      = RenderedWeightScreen.widget (jsRound (2 * 1000)) :=
  (C10_zero_weight_not_rendered (WeightScreenState.mk none)).2.2 2 (by norm_num)

end BLEApp
